import Mathlib

/-!
# Verification of the `scroll-velocity` tracker

Shallow embedding of the `ScrollVelocity` class from
`src/scroll-velocity.js` (UMD build `scroll-velocity.js`, v0.2.0,
"hybrid + responsive").  JavaScript `number` (IEEE float64) is modelled
as `ℝ`; `Math.log` as `Real.log`; `Math.pow` as `Real.rpow`; the
fallible/branchy parts (`||` on numbers, `typeof x === "number"`
option presence) are made explicit.  DOM side effects (`_writeCSS`)
are modelled as a list of published output records.
-/

namespace ScrollVelocity

noncomputable section

attribute [instance] Classical.propDecidable

/-- Sampling strategies.  The source dispatches on the string
`this.sampleMode`: `"time"`, `"hybrid"`, anything else falls through to
the delta branch. -/
inductive SampleMode where
  | delta : SampleMode
  | time : SampleMode
  | hybrid : SampleMode
deriving DecidableEq

/-- The configuration fields held on `this` (lines 73-86).
`target` is abstracted away; whether `target && target.style` is truthy
is tracked separately in `State.hasTarget`. -/
structure Config where
  sampleMode : SampleMode
  responsiveness : ℝ
  friction : ℝ
  attraction : ℝ
  threshold : ℝ
  maxVelocity : ℝ
  writeCSSVariables : Bool
  respectReducedMotion : Bool

/-- An options bag as passed to the constructor or to `setOptions`.
`some x` means the key is present with a value passing the `typeof` number
(resp. boolean coercion) check of the source; `none` means the
key is absent or of the wrong type (in which case the source ignores
it). -/
structure OptionsIn where
  sampleMode : Option SampleMode := none
  responsiveness : Option ℝ := none
  dampening : Option ℝ := none
  friction : Option ℝ := none
  attraction : Option ℝ := none
  threshold : Option ℝ := none
  maxVelocity : Option ℝ := none
  writeCSSVariables : Option Bool := none
  respectReducedMotion : Option Bool := none

/-- Config merge of the constructor (lines 73-86).  Note the constructor
reads only `options.responsiveness`; it has no `dampening` fallback. -/
def mkConfig (o : OptionsIn) : Config where
  sampleMode := o.sampleMode.getD .hybrid
  responsiveness := o.responsiveness.getD 0.35
  friction := o.friction.getD 0.92
  attraction := o.attraction.getD 0.04
  threshold := o.threshold.getD 0.02
  maxVelocity := o.maxVelocity.getD 200
  writeCSSVariables := o.writeCSSVariables.getD true
  respectReducedMotion := o.respectReducedMotion.getD true

/-- Model of `setOptions` (lines 125-153): each present field overwrites the
current value; the legacy key `dampening` is applied after
`responsiveness` and also overwrites `responsiveness`. -/
def setOptions (c : Config) (o : OptionsIn) : Config :=
  let c := match o.sampleMode with
    | some m => { c with sampleMode := m }
    | none => c
  let c := match o.responsiveness with
    | some x => { c with responsiveness := x }
    | none => c
  let c := match o.dampening with
    | some x => { c with responsiveness := x }
    | none => c
  let c := match o.friction with
    | some x => { c with friction := x }
    | none => c
  let c := match o.attraction with
    | some x => { c with attraction := x }
    | none => c
  let c := match o.threshold with
    | some x => { c with threshold := x }
    | none => c
  let c := match o.maxVelocity with
    | some x => { c with maxVelocity := x }
    | none => c
  let c := match o.writeCSSVariables with
    | some b => { c with writeCSSVariables := b }
    | none => c
  match o.respectReducedMotion with
    | some b => { c with respectReducedMotion := b }
    | none => c

/-- One published record of the four CSS custom properties written by
`_writeCSS` (lines 260-281), before decimal-string formatting. -/
structure Output where
  normalized : ℝ
  absValue : ℝ
  powValue : ℝ
  raw : ℝ

/-- The mutable instance state (lines 88-95).  `rafPending` models
`_rafId !== 0`, i.e. a tick request is outstanding. -/
structure State where
  cfg : Config
  hasTarget : Bool
  isRunning : Bool
  rafPending : Bool
  velocity : ℝ
  lastScrollY : ℝ
  lastTime : ℝ

/-- Model of `clamp(value, min, max) = Math.max(min, Math.min(max, value))`
(lines 59-61). -/
def clamp (value lo hi : ℝ) : ℝ :=
  max lo (min hi value)

/-- JavaScript `a || b` on finite numbers: `b` exactly when `a` is
`0` (the only falsy finite number apart from `-0`/`NaN`), else `a`.
Used at line 190: `const deltaT = now - this._lastTime || 16.7`. -/
def jsOr (a b : ℝ) : ℝ :=
  if a = 0 then b else a

/-- Time-mode sampling (lines 196-200):
`(deltaT > 0 ? deltaY / deltaT : 0) * 12`. -/
def timeSample (deltaY deltaT : ℝ) : ℝ :=
  (if deltaT > 0 then deltaY / deltaT else 0) * 12

/-- Hybrid-mode sampling (lines 201-219). -/
def hybridSample (deltaY deltaT : ℝ) : ℝ :=
  let cappedDeltaT := max deltaT 4
  let filteredDeltaY := if |deltaY| < 0.3 then 0 else deltaY
  if cappedDeltaT < 10 then
    filteredDeltaY * (0.85 + 0.15 * (cappedDeltaT / 10))
  else if cappedDeltaT > 25 then
    (filteredDeltaY / cappedDeltaT) * (6 + Real.log cappedDeltaT * 2)
  else
    let deltaRatio := (25 - cappedDeltaT) / 15
    let deltaComponent := filteredDeltaY * 0.7
    let timeComponent := (filteredDeltaY / cappedDeltaT) * 8
    deltaRatio * deltaComponent + (1 - deltaRatio) * timeComponent

/-- The `sampleMode` dispatch of `_onScroll` (lines 195-223): `"time"`
and `"hybrid"` have their own branches, everything else is the delta
branch. -/
def sample : SampleMode → ℝ → ℝ → ℝ
  | .time, deltaY, deltaT => timeSample deltaY deltaT
  | .hybrid, deltaY, deltaT => hybridSample deltaY deltaT
  | .delta, deltaY, _ => deltaY

/-- The blend-toward-target step followed by the clamp
(lines 226-228). -/
def blendStep (c : Config) (v instantaneous : ℝ) : ℝ :=
  let targetVelocity := v + instantaneous
  let v1 := v + (targetVelocity - v) * c.responsiveness
  clamp v1 (-c.maxVelocity) c.maxVelocity

/-- The per-tick decay applied to the velocity by `_onRaf`
(lines 246-248): multiply by `friction`, multiply by
`1 - attraction`, snap to `0` below `threshold`. -/
def decayVelocity (c : Config) (v : ℝ) : ℝ :=
  let v1 := v * c.friction
  let v2 := v1 * (1 - c.attraction)
  if |v2| < c.threshold then 0 else v2

/-- Model of `getNormalizedVelocity` (lines 167-170). -/
def getNormalizedVelocity (s : State) : ℝ :=
  if s.cfg.maxVelocity ≤ 0 then 0
  else clamp (s.velocity / s.cfg.maxVelocity) (-1) 1

/-- Model of `_writeCSS(normalized)` (lines 260-281): publishes nothing when CSS
writing is disabled or there is no styleable target, else one record of
the four values (raw is the current `this._velocity`). -/
def writeCSS (s : State) (normalized : ℝ) : List Output :=
  if !s.cfg.writeCSSVariables || !s.hasTarget then []
  else
    let a := |normalized|
    let p := min 1 (a ^ (0.7 : ℝ) * 1.35)
    [⟨normalized, a, p, s.velocity⟩]

/-- Model of `_onScroll` (lines 173-232), with the environment reads made
explicit: `reduced` is the reduced-motion media query, `y` the current
scroll offset, `now` the clock.  Returns the new state and the list of
published outputs. -/
def onScroll (reduced : Bool) (y now : ℝ) (s : State) : State × List Output :=
  if s.cfg.respectReducedMotion && reduced then
    let s' := { s with velocity := 0, rafPending := true }
    (s', writeCSS s' 0)
  else
    let deltaY := y - s.lastScrollY
    let deltaT := jsOr (now - s.lastTime) 16.7
    let instantaneous := sample s.cfg.sampleMode deltaY deltaT
    ({ s with
        lastScrollY := y
        lastTime := now
        velocity := blendStep s.cfg s.velocity instantaneous
        rafPending := true }, [])

/-- Model of `_onRaf` (lines 235-257): clear the pending request, decay (unless
reduced motion), publish, re-request a tick iff still running with
non-zero velocity. -/
def onRaf (reduced : Bool) (s : State) : State × List Output :=
  let s1 := { s with rafPending := false }
  let s2 :=
    if s1.cfg.respectReducedMotion && reduced then s1
    else { s1 with velocity := decayVelocity s1.cfg s1.velocity }
  let out := writeCSS s2 (getNormalizedVelocity s2)
  if s2.isRunning ∧ |s2.velocity| > 0 then
    ({ s2 with rafPending := true }, out)
  else (s2, out)

/-- Model of `stop` (lines 111-119): early return when not running; else clear
running, cancel any pending tick, zero the velocity, publish once. -/
def stop (s : State) : State × List Output :=
  if !s.isRunning then (s, [])
  else
    let s' := { s with
      isRunning := false
      rafPending := false
      velocity := 0 }
    (s', writeCSS s' 0)

/-- Model of `start` (lines 101-108): early return when running; else capture
position/timestamp, subscribe, request the first tick. -/
def start (y0 t0 : ℝ) (s : State) : State :=
  if s.isRunning then s
  else { s with
    isRunning := true
    lastScrollY := y0
    lastTime := t0
    rafPending := true }

/-- The state built by the constructor (lines 88-95) for a given
options bag. -/
def initState (o : OptionsIn) (hasTarget : Bool) : State where
  cfg := mkConfig o
  hasTarget := hasTarget
  isRunning := false
  rafPending := false
  velocity := 0
  lastScrollY := 0
  lastTime := 0

/-- Run a sequence of scroll events (reduced-motion flag, position,
clock reading) through `_onScroll`, keeping only the state. -/
def runScrolls (s : State) (events : List (Bool × ℝ × ℝ)) : State :=
  events.foldl (fun st e => (onScroll e.1 e.2.1 e.2.2 st).1) s

/-- A state with a negative `maxVelocity`, used to exercise the
`maxVelocity ≤ 0` guard of `getNormalizedVelocity`. -/
def sNeg : State :=
  { initState { maxVelocity := some (-5) } true with velocity := 3 }

/-- A config with `friction = -2 ≤ 1` and `attraction = 0`, exercising
the decay step outside `friction ∈ [0,1]`. -/
def cfgNegFriction : Config :=
  mkConfig { friction := some (-2), attraction := some 0 }

/-- A running default-config state with non-zero velocity. -/
def sRun : State :=
  { initState {} true with isRunning := true, rafPending := true, velocity := 5 }

/-- A running default-config state with velocity exactly 0. -/
def sZero : State :=
  { initState {} true with isRunning := true }

/-- A running default-config state with a recorded last sample, used to
exercise the reduced-motion path of the scroll handler. -/
def sRM : State :=
  { initState {} true with
      isRunning := true, velocity := 7, lastScrollY := 40, lastTime := 100 }

end

/-! ## Helper lemmas -/

theorem clamp_mem (value lo hi : ℝ) (h : lo ≤ hi) :
    lo ≤ clamp value lo hi ∧ clamp value lo hi ≤ hi := by
  unfold clamp
  exact ⟨le_max_left _ _, max_le h (min_le_left _ _)⟩

theorem abs_blendStep_le (c : Config) (h : 0 ≤ c.maxVelocity) (v i : ℝ) :
    |blendStep c v i| ≤ c.maxVelocity := by
  unfold blendStep
  rw [abs_le]
  have := clamp_mem (v + (v + i - v) * c.responsiveness)
    (-c.maxVelocity) c.maxVelocity (by linarith)
  exact ⟨this.1, this.2⟩

theorem decayVelocity_zero (c : Config) : decayVelocity c 0 = 0 := by
  unfold decayVelocity
  simp

theorem onRaf_of_velocity_zero (reduced : Bool) (s : State)
    (hv : s.velocity = 0) :
    (onRaf reduced s).1.velocity = 0 ∧
    (onRaf reduced s).1.rafPending = false := by
  by_cases hr : (s.cfg.respectReducedMotion && reduced) = true
  · simp [onRaf, hr, hv]
  · simp [onRaf, hr, hv, decayVelocity_zero]

theorem onScroll_cfg (reduced : Bool) (y now : ℝ) (s : State) :
    ((onScroll reduced y now s).1).cfg = s.cfg := by
  unfold onScroll
  split <;> rfl

theorem onScroll_velocity_le (c : Config) (hM : 0 ≤ c.maxVelocity)
    (reduced : Bool) (y now : ℝ) (s : State) (hs : s.cfg = c) :
    |((onScroll reduced y now s).1).velocity| ≤ c.maxVelocity := by
  subst hs
  unfold onScroll
  split
  · simpa using hM
  · simpa using abs_blendStep_le s.cfg hM s.velocity
      (sample s.cfg.sampleMode (y - s.lastScrollY) (jsOr (now - s.lastTime) 16.7))

/-! ## Claims -/

/-- C1: for every config with `maxVelocity > 0`, the blend-then-clamp
step of the scroll handler leaves `|velocity| ≤ maxVelocity`, and after
any nonempty sequence of scroll events the state still satisfies
`|velocity| ≤ maxVelocity`. -/
theorem blend_clamp_invariant (c : Config) (h : 0 < c.maxVelocity) :
    (∀ v instantaneous, |blendStep c v instantaneous| ≤ c.maxVelocity) ∧
    (∀ (s : State) (events : List (Bool × ℝ × ℝ)), s.cfg = c → events ≠ [] →
      |(runScrolls s events).velocity| ≤ c.maxVelocity) := by
  have hM : 0 ≤ c.maxVelocity := le_of_lt h
  refine ⟨fun v i => abs_blendStep_le c hM v i, ?_⟩
  have aux : ∀ (events : List (Bool × ℝ × ℝ)) (s : State), s.cfg = c →
      |s.velocity| ≤ c.maxVelocity →
      |(runScrolls s events).velocity| ≤ c.maxVelocity := by
    intro events
    induction events with
    | nil => intro s _ hv; exact hv
    | cons e rest ih =>
      intro s hs hv
      exact ih _ ((onScroll_cfg e.1 e.2.1 e.2.2 s).trans hs)
        (onScroll_velocity_le c hM e.1 e.2.1 e.2.2 s hs)
  intro s events hs hne
  match events with
  | e :: rest =>
    exact aux rest _ ((onScroll_cfg e.1 e.2.1 e.2.2 s).trans hs)
      (onScroll_velocity_le c hM e.1 e.2.1 e.2.2 s hs)

theorem blend_clamp_invariant_witness :
    |blendStep (mkConfig {}) 0 500| ≤ (mkConfig {}).maxVelocity ∧
    |(runScrolls (initState {} true) [(false, 100, 50)]).velocity| ≤
      (mkConfig {}).maxVelocity := by
  have h := blend_clamp_invariant (mkConfig {}) (by norm_num [mkConfig])
  exact ⟨h.1 0 500, h.2 (initState {} true) [(false, 100, 50)] rfl (by simp)⟩

/-- C2: `getNormalizedVelocity` always lies in `[-1, 1]`, returns
exactly `0` whenever `maxVelocity ≤ 0`, and otherwise returns
`clamp (velocity / maxVelocity) (-1) 1`.  (It is a pure function of the
state in this model; the source method at lines 167-170 performs no
assignment.) -/
theorem getNormalizedVelocity_spec (s : State) :
    (-1 ≤ getNormalizedVelocity s ∧ getNormalizedVelocity s ≤ 1) ∧
    (s.cfg.maxVelocity ≤ 0 → getNormalizedVelocity s = 0) ∧
    (¬s.cfg.maxVelocity ≤ 0 →
      getNormalizedVelocity s = clamp (s.velocity / s.cfg.maxVelocity) (-1) 1) := by
  unfold getNormalizedVelocity
  by_cases hM : s.cfg.maxVelocity ≤ 0
  · rw [if_pos hM]
    exact ⟨⟨by norm_num, by norm_num⟩, fun _ => rfl, fun hc => absurd hM hc⟩
  · rw [if_neg hM]
    have := clamp_mem (s.velocity / s.cfg.maxVelocity) (-1) 1 (by norm_num)
    exact ⟨this, fun hc => absurd hc hM, fun _ => rfl⟩

theorem getNormalizedVelocity_spec_witness :
    getNormalizedVelocity sNeg = 0 ∧ -1 ≤ getNormalizedVelocity sNeg := by
  have h := getNormalizedVelocity_spec sNeg
  exact ⟨h.2.1 (by norm_num [sNeg, initState, mkConfig]), h.1.1⟩

/-- C5 counterexample: the constructor (lines 73-86) reads only
`options.responsiveness` and has no `dampening` fallback, so supplying
only the legacy key `{dampening: 0.5}` at construction leaves
`responsiveness` at its default `0.35`, whereas `{responsiveness: 0.5}`
yields `0.5` — refuting the claim for the constructor. -/
theorem constructor_ignores_dampening :
    (mkConfig { dampening := some 0.5 }).responsiveness = 0.35 ∧
    (mkConfig { responsiveness := some 0.5 }).responsiveness = 0.5 ∧
    (0.35 : ℝ) ≠ 0.5 :=
  ⟨rfl, rfl, by norm_num⟩

/-- C5 amended: the legacy key `dampening` is a synonym for
`responsiveness` in `setOptions` (lines 130-134) only — there
`{dampening: x}` and `{responsiveness: x}` yield the same resulting
`responsiveness`, namely `x` — while the constructor ignores
`dampening`, leaving `responsiveness` at its default `0.35`. -/
theorem dampening_synonym_in_setOptions (c : Config) (x : ℝ) :
    (setOptions c { dampening := some x }).responsiveness =
      (setOptions c { responsiveness := some x }).responsiveness ∧
    (setOptions c { dampening := some x }).responsiveness = x ∧
    (mkConfig { dampening := some x }).responsiveness = 0.35 :=
  ⟨rfl, rfl, rfl⟩

/-- C6 counterexample: `friction = -2` satisfies `friction ≤ 1` and
`attraction = 0 ∈ [0,1]`, yet one decay step from velocity `1` yields
`-2`, of strictly larger magnitude — refuting magnitude-non-increase
under the hypotheses of the claim. -/
theorem decay_not_nonincreasing_neg_friction :
    cfgNegFriction.friction ≤ 1 ∧
    0 ≤ cfgNegFriction.attraction ∧ cfgNegFriction.attraction ≤ 1 ∧
    ¬|decayVelocity cfgNegFriction 1| ≤ |(1 : ℝ)| := by
  have h2 : ((1 : ℝ) * (-2)) * (1 - 0) = -2 := by norm_num
  constructor
  · norm_num [cfgNegFriction, mkConfig]
  constructor
  · norm_num [cfgNegFriction, mkConfig]
  constructor
  · norm_num [cfgNegFriction, mkConfig]
  · unfold decayVelocity cfgNegFriction mkConfig
    simp only [Option.getD]
    rw [h2]
    rw [abs_neg, abs_one, abs_of_nonneg (by norm_num : (0:ℝ) ≤ 2)]
    norm_num

/-- C6 amended: one decay step is magnitude-non-increasing when
`friction ∈ [0,1]` (not merely `friction ≤ 1`) and
`attraction ∈ [0,1]`. -/
theorem decay_magnitude_nonincreasing (c : Config)
    (hf0 : 0 ≤ c.friction) (hf1 : c.friction ≤ 1)
    (ha0 : 0 ≤ c.attraction) (ha1 : c.attraction ≤ 1) (v : ℝ) :
    |decayVelocity c v| ≤ |v| := by
  unfold decayVelocity
  dsimp only
  split
  · simp
  · rw [abs_mul, abs_mul]
    have h1 : |c.friction| ≤ 1 := abs_le.mpr ⟨by linarith, hf1⟩
    have h2 : |1 - c.attraction| ≤ 1 := abs_le.mpr ⟨by linarith, by linarith⟩
    calc |v| * |c.friction| * |1 - c.attraction|
        ≤ |v| * 1 * 1 := by
          apply mul_le_mul _ h2 (abs_nonneg _) (by positivity)
          exact mul_le_mul le_rfl h1 (abs_nonneg _) (abs_nonneg _)
      _ = |v| := by ring

theorem decay_magnitude_nonincreasing_witness :
    |decayVelocity (mkConfig {}) 5| ≤ |(5 : ℝ)| :=
  decay_magnitude_nonincreasing (mkConfig {})
    (by norm_num [mkConfig]) (by norm_num [mkConfig])
    (by norm_num [mkConfig]) (by norm_num [mkConfig]) 5

/-- C7: `stop` is the identity with no output when not running; when
running, it clears `running`, cancels the pending tick, forces the
velocity to exactly 0, and publishes exactly one all-zero record iff
CSS output is enabled and a styleable target exists. -/
theorem stop_spec (s : State) :
    (s.isRunning = false → stop s = (s, [])) ∧
    (s.isRunning = true →
      (stop s).1.velocity = 0 ∧
      (stop s).1.isRunning = false ∧
      (stop s).1.rafPending = false ∧
      (s.cfg.writeCSSVariables = true → s.hasTarget = true →
        (stop s).2 = [⟨0, 0, 0, 0⟩]) ∧
      ((s.cfg.writeCSSVariables = false ∨ s.hasTarget = false) →
        (stop s).2 = [])) := by
  have h07 : (0.7 : ℝ) ≠ 0 := by norm_num
  constructor
  · intro h
    simp [stop, h]
  · intro h
    refine ⟨?_, ?_, ?_, ?_, ?_⟩
    · simp [stop, h]
    · simp [stop, h]
    · simp [stop, h]
    · intro hw ht
      simp [stop, h, writeCSS, hw, ht, Real.zero_rpow h07,
        min_eq_right zero_le_one]
    · intro hw
      rcases hw with hw | hw <;> simp [stop, h, writeCSS, hw]

theorem stop_spec_witness :
    (stop sRun).1.velocity = 0 ∧ (stop sRun).2 = [⟨0, 0, 0, 0⟩] ∧
    stop (initState {} true) = (initState {} true, []) := by
  have h := stop_spec sRun
  have h0 := stop_spec (initState {} true)
  exact ⟨(h.2 rfl).1, (h.2 rfl).2.2.2.1 rfl rfl, h0.1 rfl⟩

/-- C8: a decay step whose post-multiplication value falls below the
threshold snaps the velocity to exactly 0; 0 is a fixed point of the
decay step under every config (so the velocity stays 0 across any
number of further decay steps); and a tick taken from a zero-velocity
state leaves the velocity 0 and schedules no further tick. -/
theorem decay_snap_zero_absorbing (c : Config) :
    (∀ v, |v * c.friction * (1 - c.attraction)| < c.threshold →
      decayVelocity c v = 0) ∧
    decayVelocity c 0 = 0 ∧
    (∀ n : ℕ, (decayVelocity c)^[n] 0 = 0) ∧
    (∀ (reduced : Bool) (s : State), s.cfg = c → s.velocity = 0 →
      (onRaf reduced s).1.velocity = 0 ∧
      (onRaf reduced s).1.rafPending = false) := by
  have hfix : decayVelocity c 0 = 0 := decayVelocity_zero c
  refine ⟨?_, hfix, fun n => Function.iterate_fixed hfix n, ?_⟩
  · intro v hv
    unfold decayVelocity
    dsimp only
    rw [if_pos hv]
  · intro reduced s _ hv
    exact onRaf_of_velocity_zero reduced s hv

theorem decay_snap_zero_absorbing_witness :
    decayVelocity (mkConfig {}) 0.01 = 0 ∧
    (decayVelocity (mkConfig {}))^[5] 0 = 0 ∧
    (onRaf false sZero).1.rafPending = false := by
  have h := decay_snap_zero_absorbing (mkConfig {})
  refine ⟨h.1 0.01 ?_, h.2.2.1 5, (h.2.2.2 false sZero rfl rfl).2⟩
  show |(0.01 : ℝ) * (mkConfig {}).friction * (1 - (mkConfig {}).attraction)| <
    (mkConfig {}).threshold
  unfold mkConfig
  simp only [Option.getD]
  rw [abs_of_nonneg (by norm_num)]
  norm_num

/-- C3 counterexample: an elapsed time of `-5` ms is negative but,
being truthy in JavaScript, is NOT replaced by the 16.7 ms fallback of
line 190 — `now - this._lastTime || 16.7` substitutes only when the
difference is exactly zero. -/
theorem negative_deltaT_not_substituted :
    (-5 : ℝ) ≤ 0 ∧ jsOr (-5) 16.7 = -5 ∧ ((-5 : ℝ) ≠ 16.7) := by
  refine ⟨by norm_num, ?_, by norm_num⟩
  unfold jsOr
  rw [if_neg (by norm_num)]

/-- C3 amended: only an elapsed time of exactly zero is replaced by the
16.7 ms fallback; a non-zero (in particular negative) elapsed time is
used as-is.  Nevertheless no sampling mode divides by a non-positive
elapsed time: the time mode yields 0 unless `deltaT > 0`, the hybrid
mode divides only by `max deltaT 4 ≥ 4`, and the delta mode performs no
division. -/
theorem deltaT_fallback_and_division_guards :
    jsOr 0 16.7 = 16.7 ∧
    (∀ x : ℝ, x ≠ 0 → jsOr x 16.7 = x) ∧
    (∀ deltaY deltaT : ℝ, deltaT ≤ 0 → timeSample deltaY deltaT = 0) ∧
    (∀ deltaT : ℝ, 4 ≤ max deltaT 4) := by
  refine ⟨?_, ?_, ?_, fun deltaT => le_max_right deltaT 4⟩
  · unfold jsOr
    rw [if_pos rfl]
  · intro x hx
    unfold jsOr
    rw [if_neg hx]
  · intro deltaY deltaT ht
    unfold timeSample
    rw [if_neg (not_lt.mpr ht), zero_mul]

theorem deltaT_fallback_and_division_guards_witness :
    jsOr (-5) 16.7 = -5 ∧ timeSample 100 (-5) = 0 ∧ (4 : ℝ) ≤ max (-5) 4 := by
  have h := deltaT_fallback_and_division_guards
  exact ⟨h.2.1 (-5) (by norm_num), h.2.2.1 100 (-5) (by norm_num),
    h.2.2.2 (-5)⟩

/-- C10: when the reduced-motion preference is active and respected,
the scroll handler zeroes the velocity, publishes one all-zero record
(when output is enabled), re-arms the tick, and leaves `lastScrollY`
and `lastTime` untouched; consequently the next normally-processed
sample computes its delta against the last sample taken before the
reduced-motion period. -/
theorem reduced_motion_preserves_last_sample (s : State) (y now : ℝ)
    (h : s.cfg.respectReducedMotion = true) :
    (onScroll true y now s).1 =
      { s with velocity := 0, rafPending := true } ∧
    (s.cfg.writeCSSVariables = true → s.hasTarget = true →
      (onScroll true y now s).2 = [⟨0, 0, 0, 0⟩]) ∧
    (∀ y2 now2 : ℝ,
      (onScroll false y2 now2 (onScroll true y now s).1).1.velocity =
        blendStep s.cfg 0
          (sample s.cfg.sampleMode (y2 - s.lastScrollY)
            (jsOr (now2 - s.lastTime) 16.7))) := by
  have h07 : (0.7 : ℝ) ≠ 0 := by norm_num
  refine ⟨?_, ?_, ?_⟩
  · simp [onScroll, h]
  · intro hw ht
    simp [onScroll, h, writeCSS, hw, ht, Real.zero_rpow h07,
      min_eq_right zero_le_one]
  · intro y2 now2
    simp [onScroll, h]

theorem reduced_motion_preserves_last_sample_witness :
    (onScroll true 80 120 sRM).1 =
      { sRM with velocity := 0, rafPending := true } ∧
    (onScroll true 80 120 sRM).2 = [⟨0, 0, 0, 0⟩] := by
  have h := reduced_motion_preserves_last_sample sRM 80 120 rfl
  exact ⟨h.1, h.2.1 rfl rfl⟩

/-! ## Numeric helper lemmas for the decay and hybrid scenarios -/

theorem decay_default_step (v : ℝ) (h : 0.02 ≤ |v * 0.8832|) :
    decayVelocity (mkConfig {}) v = v * 0.8832 := by
  unfold decayVelocity mkConfig
  dsimp only [Option.getD]
  rw [mul_assoc, show (0.92 : ℝ) * (1 - 0.04) = 0.8832 by norm_num]
  rw [if_neg (not_lt.mpr h)]

theorem decay_default_iterate : ∀ k : ℕ, k ≤ 31 →
    (decayVelocity (mkConfig {}))^[k] 1 = 0.8832 ^ k := by
  intro k
  induction k with
  | zero => intro _; simp
  | succ n ih =>
    intro hk
    rw [Function.iterate_succ_apply', ih (le_trans (Nat.le_succ n) hk)]
    rw [decay_default_step, ← pow_succ]
    rw [← pow_succ, abs_of_nonneg (by positivity)]
    calc (0.02 : ℝ) ≤ 0.8832 ^ 31 := by norm_num
      _ ≤ 0.8832 ^ (n + 1) :=
        pow_le_pow_of_le_one (by norm_num) (by norm_num) hk

theorem log50_lower : (3.9 : ℝ) < Real.log 50 := by
  rw [Real.lt_log_iff_exp_lt (by norm_num : (0:ℝ) < 50)]
  have h1 : Real.exp ((3.9:ℝ)) ^ (10:ℕ) = Real.exp 1 ^ (39:ℕ) := by
    rw [← Real.exp_nat_mul, ← Real.exp_nat_mul]
    norm_num
  have h2 : Real.exp 1 ^ (39:ℕ) < 2.7182818286 ^ (39:ℕ) :=
    pow_lt_pow_left₀ Real.exp_one_lt_d9 (le_of_lt (Real.exp_pos 1))
      (by norm_num)
  have h3 : (2.7182818286:ℝ) ^ (39:ℕ) < 50 ^ (10:ℕ) := by norm_num
  have h4 : Real.exp (3.9:ℝ) ^ (10:ℕ) < 50 ^ (10:ℕ) := by
    rw [h1]; exact h2.trans h3
  exact lt_of_pow_lt_pow_left₀ 10 (by norm_num) h4

theorem log50_upper : Real.log 50 < 3.92 := by
  rw [Real.log_lt_iff_lt_exp (by norm_num : (0:ℝ) < 50)]
  have h1 : Real.exp ((3.92:ℝ)) ^ (25:ℕ) = Real.exp 1 ^ (98:ℕ) := by
    rw [← Real.exp_nat_mul, ← Real.exp_nat_mul]
    norm_num
  have h2 : (2.7182818283:ℝ) ^ (98:ℕ) < Real.exp 1 ^ (98:ℕ) :=
    pow_lt_pow_left₀ Real.exp_one_gt_d9 (by norm_num) (by norm_num)
  have h3 : (50:ℝ) ^ (25:ℕ) < 2.7182818283 ^ (98:ℕ) := by norm_num
  have h4 : (50:ℝ) ^ (25:ℕ) < Real.exp (3.92:ℝ) ^ (25:ℕ) := by
    rw [h1]; exact h3.trans h2
  exact lt_of_pow_lt_pow_left₀ 25 (le_of_lt (Real.exp_pos _)) h4

/-- C4 counterexample: after 30 decay ticks from velocity 1.0 under the
default physics (`friction = 0.92`, `attraction = 0.04`,
`threshold = 0.02`) the velocity is `0.8832^30 ≈ 0.0241`, which is
still at or above the 0.02 threshold — so it has NOT snapped to 0,
refuting 0.8832^30 ≈ 0.018 < threshold. -/
theorem thirty_ticks_not_snapped :
    (decayVelocity (mkConfig {}))^[30] 1 = 0.8832 ^ 30 ∧
    (0.02 : ℝ) ≤ 0.8832 ^ 30 ∧ ((0.8832 : ℝ) ^ 30 ≠ 0) :=
  ⟨decay_default_iterate 30 (by norm_num), by norm_num, by positivity⟩

/-- C4 amended: under the default physics each tick multiplies the
velocity by `0.92 * 0.96 = 0.8832` while the result stays at or above
the threshold; after 30 ticks the velocity is `0.8832^30 ≈ 0.0241`,
still above the 0.02 threshold; the first sub-threshold value is
`0.8832^32 ≈ 0.0188` at tick 32, where the velocity snaps to exactly 0;
and a tick taken from a zero-velocity state schedules no further
tick. -/
theorem decay_snaps_at_tick_32 :
    (∀ k : ℕ, k ≤ 31 → (decayVelocity (mkConfig {}))^[k] 1 = 0.8832 ^ k) ∧
    (decayVelocity (mkConfig {}))^[32] 1 = 0 ∧
    (∀ s : State, s.velocity = 0 → (onRaf false s).1.rafPending = false) := by
  refine ⟨decay_default_iterate, ?_,
    fun s hv => (onRaf_of_velocity_zero false s hv).2⟩
  rw [Function.iterate_succ_apply', decay_default_iterate 31 (by norm_num)]
  unfold decayVelocity mkConfig
  dsimp only [Option.getD]
  rw [mul_assoc, show (0.92 : ℝ) * (1 - 0.04) = 0.8832 by norm_num,
    ← pow_succ]
  rw [if_pos]
  rw [abs_of_nonneg (by positivity)]
  norm_num

theorem decay_snaps_at_tick_32_witness :
    (decayVelocity (mkConfig {}))^[31] 1 = 0.8832 ^ 31 ∧
    (onRaf false sZero).1.rafPending = false := by
  have h := decay_snaps_at_tick_32
  exact ⟨h.1 31 (by norm_num), h.2.2 sZero rfl⟩

/-- C9: with the default config (hybrid mode, responsiveness 0.35) and
velocity 0, a single sample with `deltaPosition = 100` and
`deltaTime = 50` takes the `t > 25` hybrid branch, where the adaptive
scale is `6 + 2*ln 50` (within 0.03 of 13.82), the instantaneous
estimate is `(100/50)*(6 + 2*ln 50)` (within 0.05 of 27.64), and the
post-blend velocity is within 0.02 of 9.67. -/
theorem hybrid_default_scenario :
    hybridSample 100 50 = 100 / 50 * (6 + Real.log 50 * 2) ∧
    |6 + Real.log 50 * 2 - 13.82| < 0.03 ∧
    |hybridSample 100 50 - 27.64| < 0.05 ∧
    |(onScroll false 100 50 (initState {} true)).1.velocity - 9.67| <
      0.02 := by
  have hlo := log50_lower
  have hhi := log50_upper
  have hmax : max (50:ℝ) 4 = 50 := max_eq_left (by norm_num)
  have hfil : ¬|(100:ℝ)| < 0.3 := by
    rw [abs_of_nonneg (by norm_num : (0:ℝ) ≤ 100)]
    norm_num
  have hbranch : hybridSample 100 50 = 100 / 50 * (6 + Real.log 50 * 2) := by
    unfold hybridSample
    dsimp only
    rw [hmax, if_neg hfil, if_neg (by norm_num : ¬(50:ℝ) < 10),
      if_pos (by norm_num : (50:ℝ) > 25)]
  have hval : hybridSample 100 50 = 2 * (6 + Real.log 50 * 2) := by
    rw [hbranch]; norm_num
  have hscale : |6 + Real.log 50 * 2 - 13.82| < 0.03 := by
    rw [abs_lt]
    constructor <;> linarith
  have hinst : |hybridSample 100 50 - 27.64| < 0.05 := by
    rw [hval, abs_lt]
    constructor <;> linarith
  have hjs : jsOr ((50:ℝ) - 0) 16.7 = 50 := by
    unfold jsOr
    rw [if_neg (by norm_num : ¬((50:ℝ) - 0 = 0))]
    norm_num
  have hscroll : (onScroll false 100 50 (initState {} true)).1.velocity =
      blendStep (mkConfig {}) 0
        (hybridSample (100 - 0) (jsOr ((50:ℝ) - 0) 16.7)) := by
    unfold onScroll
    rw [if_neg (by simp [initState] : ¬((initState {} true).cfg.respectReducedMotion && false) = true)]
    dsimp only [initState, mkConfig, Option.getD, sample]
  have hblend : ∀ X : ℝ, -200 ≤ X * 0.35 → X * 0.35 ≤ 200 →
      blendStep (mkConfig {}) 0 X = X * 0.35 := by
    intro X h1 h2
    unfold blendStep clamp mkConfig
    dsimp only [Option.getD]
    rw [show (0:ℝ) + (0 + X - 0) * 0.35 = X * 0.35 by ring]
    rw [min_eq_right h2, max_eq_right h1]
  refine ⟨hbranch, hscale, hinst, ?_⟩
  rw [hscroll, show (100:ℝ) - 0 = 100 by norm_num, hjs]
  rw [hblend (hybridSample 100 50) (by rw [hval]; linarith)
    (by rw [hval]; linarith)]
  rw [hval, abs_lt]
  constructor <;> linarith

end ScrollVelocity
